import Mathlib

/-!
Shallow embedding of the transaction ledger and account state machine of
the `effective-train` payments engine (`src/data.rs`, `src/account.rs`,
`src/ledger.rs`).

Modelling choices:
* `rust_decimal::Decimal` is modelled as an integer clamped to the range
  `[-DMAX, DMAX]` with `DMAX = 2^96 - 1` (the magnitude bound of Decimal's
  96-bit mantissa); `saturating_add` / `saturating_sub` are exact addition
  and subtraction followed by clamping at those bounds, exactly as
  rust_decimal behaves on scale-0 values.
* `u16` client ids and `u32` transaction ids are modelled as `Nat` (no
  arithmetic is ever performed on them).
* Rust methods returning `anyhow::Result<()>` while mutating `&mut self`
  are modelled as functions returning the pair of an `Except TxError Unit`
  and the post-call state; mutations performed before a `bail!` (such as
  the lock set by `chargeback`) are therefore visible in the returned
  state, as they are in the Rust code.
* The two `HashMap`s of `Ledger` are modelled as functions to `Option`.
-/

/-- Magnitude bound of `rust_decimal::Decimal`: `2 ^ 96 - 1`. -/
def DMAX : Int := 79228162514264337593543950335

/-- Clamp an integer into the representable Decimal range. -/
def clampDec (x : Int) : Int :=
  if x < -DMAX then -DMAX else if DMAX < x then DMAX else x

/-- Model of `Decimal::saturating_add`. -/
def satAdd (x y : Int) : Int := clampDec (x + y)

/-- Model of `Decimal::saturating_sub`. -/
def satSub (x y : Int) : Int := clampDec (x - y)

/-- Model of `data.rs::TransactionType`. -/
inductive TransactionType
  | Deposit
  | Withdrawal
  | Dispute
  | Resolve
  | Chargeback
deriving DecidableEq

/-- Model of `data.rs::Transaction`. -/
structure Transaction where
  tx_type : TransactionType
  client_id : Nat
  tx_id : Nat
  amount : Option Int
  in_dispute : Bool
deriving DecidableEq

/-- Model of `Transaction::is_disputable`: the kind is Deposit or
Withdrawal; the `in_dispute` flag is not consulted. -/
def Transaction.is_disputable (t : Transaction) : Bool :=
  match t.tx_type with
  | TransactionType.Deposit => true
  | TransactionType.Withdrawal => true
  | _ => false

/-- The distinct failure messages produced by `bail!` in `account.rs` and
`ledger.rs`, one constructor per distinct message. -/
inductive TxError
  | AccountLocked (client : Nat)
  | ClientIdMismatch (client : Nat)
  | ChargebackFailed (client : Nat)
  | DepositFailed (client : Nat)
  | CannotBeDisputed (txid : Nat)
  | NotUnderDispute (txid : Nat)
  | ResolveMissingAmount
  | InsufficientFunds (client : Nat)
  | WithdrawalFailed (client : Nat)
  | UnmatchedTransaction (txid : Nat)
deriving DecidableEq

instance : DecidableEq (Except TxError Unit) := fun a b =>
  match a, b with
  | Except.ok (), Except.ok () => isTrue rfl
  | Except.error e1, Except.error e2 =>
    if h : e1 = e2 then isTrue (by rw [h])
    else isFalse (by intro hh; cases hh; exact h rfl)
  | Except.ok _, Except.error _ => isFalse (by intro hh; cases hh)
  | Except.error _, Except.ok _ => isFalse (by intro hh; cases hh)

/-- Model of `account.rs::ClientState`. -/
structure ClientState where
  client_id : Nat
  available : Int
  held : Int
  locked : Bool
deriving DecidableEq

/-- Model of `ClientState::new`. -/
def ClientState.new (client_id : Nat) : ClientState :=
  { client_id := client_id, available := 0, held := 0, locked := false }

/-- Model of `ClientState::total`. -/
def ClientState.total (s : ClientState) : Int :=
  satAdd s.available s.held

/-- Model of `ClientState::account_ready`: the lock check runs before the
client-id mismatch check. -/
def ClientState.account_ready (s : ClientState) (client_id : Nat) :
    Except TxError Unit :=
  if s.locked then Except.error (TxError.AccountLocked s.client_id)
  else if client_id ≠ s.client_id then
    Except.error (TxError.ClientIdMismatch client_id)
  else Except.ok ()

/-- Model of `<ClientState as Transact>::chargeback`: after the
`account_ready` check on the incoming transaction's client id alone, the
lock is set, and only then is the stored transaction's amount examined. -/
def ClientState.chargeback (s : ClientState) (tx chargeback_tx : Transaction) :
    Except TxError Unit × ClientState :=
  match s.account_ready tx.client_id with
  | Except.error e => (Except.error e, s)
  | Except.ok _ =>
    let s1 := { s with locked := true }
    match chargeback_tx.amount with
    | some amount => (Except.ok (), { s1 with held := satSub s1.held amount })
    | none => (Except.error (TxError.ChargebackFailed s1.client_id), s1)

/-- Model of `<ClientState as Transact>::deposit`. -/
def ClientState.deposit (s : ClientState) (tx : Transaction) :
    Except TxError Unit × ClientState :=
  match s.account_ready tx.client_id with
  | Except.error e => (Except.error e, s)
  | Except.ok _ =>
    match tx.amount with
    | some amount => (Except.ok (), { s with available := satAdd s.available amount })
    | none => (Except.error (TxError.DepositFailed s.client_id), s)

/-- Model of `<ClientState as Transact>::dispute`: `account_ready` is run
on both the incoming and the stored transaction's client id, then the
stored transaction must have an amount and be disputable (kind check
only). The triple returned is (result, account, stored transaction). -/
def ClientState.dispute (s : ClientState) (tx disputed_tx : Transaction) :
    Except TxError Unit × ClientState × Transaction :=
  match s.account_ready tx.client_id with
  | Except.error e => (Except.error e, s, disputed_tx)
  | Except.ok _ =>
    match s.account_ready disputed_tx.client_id with
    | Except.error e => (Except.error e, s, disputed_tx)
    | Except.ok _ =>
      match disputed_tx.amount with
      | some amount =>
        if disputed_tx.is_disputable then
          (Except.ok (),
           { s with available := satSub s.available amount,
                    held := satAdd s.held amount },
           { disputed_tx with in_dispute := true })
        else (Except.error (TxError.CannotBeDisputed disputed_tx.tx_id), s, disputed_tx)
      | none => (Except.error (TxError.CannotBeDisputed disputed_tx.tx_id), s, disputed_tx)

/-- Model of `<ClientState as Transact>::resolve`, with the Rust match arm
order preserved: the success arm requires an amount and `in_dispute`; the
second arm catches every remaining not-in-dispute case (with or without an
amount); the final arm (in dispute but no amount) is the missing-amount
failure. -/
def ClientState.resolve (s : ClientState) (tx disputed_tx : Transaction) :
    Except TxError Unit × ClientState × Transaction :=
  match s.account_ready tx.client_id with
  | Except.error e => (Except.error e, s, disputed_tx)
  | Except.ok _ =>
    match s.account_ready disputed_tx.client_id with
    | Except.error e => (Except.error e, s, disputed_tx)
    | Except.ok _ =>
      match disputed_tx.amount with
      | some amount =>
        if disputed_tx.in_dispute then
          (Except.ok (),
           { s with available := satAdd s.available amount,
                    held := satSub s.held amount },
           { disputed_tx with in_dispute := false })
        else (Except.error (TxError.NotUnderDispute disputed_tx.tx_id), s, disputed_tx)
      | none =>
        if disputed_tx.in_dispute then
          (Except.error TxError.ResolveMissingAmount, s, disputed_tx)
        else (Except.error (TxError.NotUnderDispute disputed_tx.tx_id), s, disputed_tx)

/-- Model of `<ClientState as Transact>::withdraw`. -/
def ClientState.withdraw (s : ClientState) (tx : Transaction) :
    Except TxError Unit × ClientState :=
  match s.account_ready tx.client_id with
  | Except.error e => (Except.error e, s)
  | Except.ok _ =>
    match tx.amount with
    | some amount =>
      if s.available ≥ amount then
        (Except.ok (), { s with available := satSub s.available amount })
      else (Except.error (TxError.InsufficientFunds s.client_id), s)
    | none => (Except.error (TxError.WithdrawalFailed s.client_id), s)

/-- Pointwise update of a function-modelled map (`HashMap::insert`, and
the write-back of in-place mutation through `entry` / `get_mut`). -/
def upd {α : Type} (m : Nat → Option α) (k : Nat) (v : α) : Nat → Option α :=
  fun k2 => if k2 = k then some v else m k2

/-- Model of `ledger.rs::Ledger`. -/
structure Ledger where
  accounts : Nat → Option ClientState
  approved_tx : Nat → Option Transaction

/-- Model of `Ledger::new`. -/
def Ledger.new : Ledger :=
  { accounts := fun _ => none, approved_tx := fun _ => none }

/-- Model of `Ledger::process_transaction`. The account entry is created
(`entry(..).or_insert_with(..)`) before dispatch, so it exists even when
the dispatch then fails; the post-operation account state is written back
unconditionally (the Rust code mutates the map entry in place), and
`record_tx` runs only on deposit/withdrawal success. -/
def Ledger.process_transaction (l : Ledger) (tx : Transaction) :
    Except TxError Unit × Ledger :=
  let state := (l.accounts tx.client_id).getD (ClientState.new tx.client_id)
  match tx.tx_type, l.approved_tx tx.tx_id with
  | TransactionType.Deposit, _ =>
    let r := state.deposit tx
    let accounts := upd l.accounts tx.client_id r.2
    match r.1 with
    | Except.ok _ =>
      (Except.ok (), { accounts := accounts,
                       approved_tx := upd l.approved_tx tx.tx_id tx })
    | Except.error e =>
      (Except.error e, { accounts := accounts, approved_tx := l.approved_tx })
  | TransactionType.Withdrawal, _ =>
    let r := state.withdraw tx
    let accounts := upd l.accounts tx.client_id r.2
    match r.1 with
    | Except.ok _ =>
      (Except.ok (), { accounts := accounts,
                       approved_tx := upd l.approved_tx tx.tx_id tx })
    | Except.error e =>
      (Except.error e, { accounts := accounts, approved_tx := l.approved_tx })
  | TransactionType.Dispute, some disputed_tx =>
    let r := state.dispute tx disputed_tx
    (r.1, { accounts := upd l.accounts tx.client_id r.2.1,
            approved_tx := upd l.approved_tx tx.tx_id r.2.2 })
  | TransactionType.Resolve, some disputed_tx =>
    let r := state.resolve tx disputed_tx
    (r.1, { accounts := upd l.accounts tx.client_id r.2.1,
            approved_tx := upd l.approved_tx tx.tx_id r.2.2 })
  | TransactionType.Chargeback, some chargeback_tx =>
    let r := state.chargeback tx chargeback_tx
    (r.1, { accounts := upd l.accounts tx.client_id r.2,
            approved_tx := l.approved_tx })
  | _, _ =>
    (Except.error (TxError.UnmatchedTransaction tx.tx_id),
     { accounts := upd l.accounts tx.client_id state,
       approved_tx := l.approved_tx })

/-- Model of the `event_handler` loop: fold `process_transaction` over the
input stream starting from `Ledger::new`, discarding per-record failures. -/
def Ledger.applyAll (txs : List Transaction) : Ledger :=
  txs.foldl (fun l tx => (l.process_transaction tx).2) Ledger.new

/-! ## Helper lemmas -/

theorem account_ready_ok (s : ClientState) (c : Nat)
    (hl : s.locked = false) (hc : c = s.client_id) :
    s.account_ready c = Except.ok () := by
  simp [ClientState.account_ready, hl, hc]

theorem account_ready_locked (s : ClientState) (c : Nat)
    (hl : s.locked = true) :
    s.account_ready c = Except.error (TxError.AccountLocked s.client_id) := by
  simp [ClientState.account_ready, hl]

theorem account_ready_mismatch (s : ClientState) (c : Nat)
    (hl : s.locked = false) (hc : c ≠ s.client_id) :
    s.account_ready c = Except.error (TxError.ClientIdMismatch c) := by
  simp [ClientState.account_ready, hl, hc]

theorem clampDec_eq_self (x : Int) (h1 : -DMAX ≤ x) (h2 : x ≤ DMAX) :
    clampDec x = x := by
  simp only [clampDec, DMAX] at *
  split
  · omega
  · split <;> omega

/-! ## Claim C1 -/

def c1_deposit : Transaction :=
  { tx_type := TransactionType.Deposit, client_id := 1, tx_id := 1,
    amount := some 100, in_dispute := false }

def c1_dispute : Transaction :=
  { tx_type := TransactionType.Dispute, client_id := 1, tx_id := 1,
    amount := none, in_dispute := false }

/-- C1: after Deposit(client 1, tx 1, 100) and a first Dispute of tx 1, the
stored transaction is flagged `in_dispute = true`, yet a second Dispute of
the same stored transaction is ACCEPTED (returns ok) and moves the amount
from available to held a second time, leaving available = -100 and
held = 200: `is_disputable` checks only the transaction kind, never the
`in_dispute` flag, so no state guard rejects the second dispute. -/
theorem ledger_double_dispute_double_moves :
    (Ledger.applyAll [c1_deposit, c1_dispute]).approved_tx 1 =
      some { c1_deposit with in_dispute := true } ∧
    ((Ledger.applyAll [c1_deposit, c1_dispute]).process_transaction c1_dispute).1 =
      Except.ok () ∧
    ((Ledger.applyAll [c1_deposit, c1_dispute]).process_transaction
        c1_dispute).2.accounts 1 =
      some { client_id := 1, available := -100, held := 200, locked := false } := by
  decide

/-! ## Claim C2 -/

def c2_account : ClientState :=
  { client_id := 7, available := 50, held := 30, locked := true }

def c2_chargeback : Transaction :=
  { tx_type := TransactionType.Chargeback, client_id := 7, tx_id := 4,
    amount := none, in_dispute := false }

def c2_stored : Transaction :=
  { tx_type := TransactionType.Deposit, client_id := 7, tx_id := 4,
    amount := some 30, in_dispute := true }

/-- C2 counterexample: on a locked account, Chargeback IS rejected by the
lock guard (`account_ready` runs first and bails with the locked failure),
contrary to the claim that chargeback may still run on a locked account. -/
theorem chargeback_rejected_on_locked_account_cex :
    (c2_account.chargeback c2_chargeback c2_stored).1 =
      Except.error (TxError.AccountLocked 7) ∧
    (c2_account.chargeback c2_chargeback c2_stored).2 = c2_account := by
  decide

/-- C2 amended: for every locked account, ALL five operations — Chargeback
included — are rejected with the locked failure and leave the account
state and the stored transaction unchanged. -/
theorem locked_account_rejects_all_operations (s : ClientState)
    (tx stored : Transaction) (hl : s.locked = true) :
    s.deposit tx = (Except.error (TxError.AccountLocked s.client_id), s) ∧
    s.withdraw tx = (Except.error (TxError.AccountLocked s.client_id), s) ∧
    s.dispute tx stored =
      (Except.error (TxError.AccountLocked s.client_id), s, stored) ∧
    s.resolve tx stored =
      (Except.error (TxError.AccountLocked s.client_id), s, stored) ∧
    s.chargeback tx stored =
      (Except.error (TxError.AccountLocked s.client_id), s) := by
  simp [ClientState.deposit, ClientState.withdraw, ClientState.dispute,
        ClientState.resolve, ClientState.chargeback,
        account_ready_locked s _ hl]

/-- C2 witness: the amended theorem applied to a concrete locked account. -/
theorem locked_account_rejects_all_operations_witness :
    c2_account.locked = true ∧
    c2_account.deposit c2_chargeback =
      (Except.error (TxError.AccountLocked 7), c2_account) ∧
    c2_account.withdraw c2_chargeback =
      (Except.error (TxError.AccountLocked 7), c2_account) ∧
    c2_account.dispute c2_chargeback c2_stored =
      (Except.error (TxError.AccountLocked 7), c2_account, c2_stored) ∧
    c2_account.resolve c2_chargeback c2_stored =
      (Except.error (TxError.AccountLocked 7), c2_account, c2_stored) ∧
    c2_account.chargeback c2_chargeback c2_stored =
      (Except.error (TxError.AccountLocked 7), c2_account) := by
  have h := locked_account_rejects_all_operations c2_account c2_chargeback
    c2_stored (by decide)
  exact ⟨by decide, h.1, h.2.1, h.2.2.1, h.2.2.2.1, h.2.2.2.2⟩

/-! ## Claim C3 -/

def c3_account : ClientState :=
  { client_id := 1, available := 20, held := 5, locked := false }

def c3_chargeback : Transaction :=
  { tx_type := TransactionType.Chargeback, client_id := 1, tx_id := 9,
    amount := none, in_dispute := false }

def c3_stored : Transaction :=
  { tx_type := TransactionType.Deposit, client_id := 2, tx_id := 9,
    amount := some 5, in_dispute := false }

/-- C3 counterexample: a Chargeback whose referenced stored transaction
carries client_id 2 ≠ 1 (the account's id) is NOT rejected: it succeeds,
sets locked and changes held, because `chargeback` checks only the
incoming transaction's client id and never looks at the stored
transaction's client id. -/
theorem chargeback_ignores_stored_client_id_cex :
    c3_stored.client_id ≠ c3_account.client_id ∧
    (c3_account.chargeback c3_chargeback c3_stored).1 = Except.ok () ∧
    (c3_account.chargeback c3_chargeback c3_stored).2 =
      { client_id := 1, available := 20, held := 0, locked := true } := by
  decide

/-- C3 amended: Dispute and Resolve reject a stored-transaction client-id
mismatch with the mismatch failure, leaving the account and the stored
transaction unchanged; Chargeback performs no such check and, given a
stored transaction with an amount, proceeds despite the mismatch. -/
theorem stored_client_mismatch_rejected_dispute_resolve (s : ClientState)
    (tx stored : Transaction) (hl : s.locked = false)
    (hc : tx.client_id = s.client_id) (hm : stored.client_id ≠ s.client_id) :
    s.dispute tx stored =
      (Except.error (TxError.ClientIdMismatch stored.client_id), s, stored) ∧
    s.resolve tx stored =
      (Except.error (TxError.ClientIdMismatch stored.client_id), s, stored) ∧
    ∀ a, stored.amount = some a → (s.chargeback tx stored).1 = Except.ok () := by
  refine ⟨?_, ?_, ?_⟩
  · simp [ClientState.dispute, account_ready_ok s _ hl hc,
          account_ready_mismatch s _ hl hm]
  · simp [ClientState.resolve, account_ready_ok s _ hl hc,
          account_ready_mismatch s _ hl hm]
  · intro a ha
    simp [ClientState.chargeback, account_ready_ok s _ hl hc, ha]

/-- C3 witness: the amended theorem applied to a concrete unlocked account
and a stored transaction with a mismatched client id. -/
theorem stored_client_mismatch_rejected_dispute_resolve_witness :
    c3_account.dispute c3_chargeback c3_stored =
      (Except.error (TxError.ClientIdMismatch 2), c3_account, c3_stored) ∧
    c3_account.resolve c3_chargeback c3_stored =
      (Except.error (TxError.ClientIdMismatch 2), c3_account, c3_stored) ∧
    ∀ a, c3_stored.amount = some a →
      (c3_account.chargeback c3_chargeback c3_stored).1 = Except.ok () := by
  exact stored_client_mismatch_rejected_dispute_resolve c3_account
    c3_chargeback c3_stored (by decide) (by decide) (by decide)

/-! ## Claim C4 -/

/-- C4: on an unlocked account whose client id matches the incoming
chargeback transaction's, the locked flag is true after the call in every
case; when the stored transaction has no amount the call fails with the
chargeback failure but the account is nevertheless locked (balances
untouched), and when it has an amount the call succeeds and held is
decreased by the amount, saturating. -/
theorem chargeback_locks_before_amount_check (s : ClientState)
    (tx stored : Transaction) (hl : s.locked = false)
    (hc : tx.client_id = s.client_id) :
    (s.chargeback tx stored).2.locked = true ∧
    (stored.amount = none →
      s.chargeback tx stored =
        (Except.error (TxError.ChargebackFailed s.client_id),
         { s with locked := true })) ∧
    (∀ a, stored.amount = some a →
      s.chargeback tx stored =
        (Except.ok (), { s with locked := true, held := satSub s.held a })) := by
  have hr := account_ready_ok s tx.client_id hl hc
  cases ha : stored.amount <;>
    simp [ClientState.chargeback, hr, ha]

def c4_account : ClientState :=
  { client_id := 5, available := 40, held := 25, locked := false }

def c4_chargeback : Transaction :=
  { tx_type := TransactionType.Chargeback, client_id := 5, tx_id := 2,
    amount := none, in_dispute := false }

def c4_stored_none : Transaction :=
  { tx_type := TransactionType.Deposit, client_id := 5, tx_id := 2,
    amount := none, in_dispute := false }

/-- C4 witness: the theorem applied to a concrete unlocked account and a
stored transaction with no amount — the call fails yet locks the account. -/
theorem chargeback_locks_before_amount_check_witness :
    (c4_account.chargeback c4_chargeback c4_stored_none).2.locked = true ∧
    (c4_stored_none.amount = none →
      c4_account.chargeback c4_chargeback c4_stored_none =
        (Except.error (TxError.ChargebackFailed 5),
         { c4_account with locked := true })) ∧
    (∀ a, c4_stored_none.amount = some a →
      c4_account.chargeback c4_chargeback c4_stored_none =
        (Except.ok (),
         { c4_account with locked := true, held := satSub c4_account.held a })) := by
  exact chargeback_locks_before_amount_check c4_account c4_chargeback
    c4_stored_none (by decide) (by decide)

/-! ## Claim C5 -/

def c5_account : ClientState :=
  { client_id := 1, available := 10, held := 0, locked := false }

def c5_resolve : Transaction :=
  { tx_type := TransactionType.Resolve, client_id := 1, tx_id := 5,
    amount := none, in_dispute := false }

def c5_stored : Transaction :=
  { tx_type := TransactionType.Deposit, client_id := 1, tx_id := 5,
    amount := none, in_dispute := false }

/-- C5 counterexample: a stored transaction with NO amount that is not in
dispute makes Resolve fail with the not-in-dispute failure, not the
missing-amount failure — the `_ if !in_dispute` arm catches the case
before the missing-amount arm, so the not-in-dispute failure is not
raised only after an amount is confirmed. -/
theorem resolve_no_amount_not_in_dispute_cex :
    c5_stored.amount = none ∧
    (c5_account.resolve c5_resolve c5_stored).1 =
      Except.error (TxError.NotUnderDispute 5) ∧
    (c5_account.resolve c5_resolve c5_stored).1 ≠
      Except.error TxError.ResolveMissingAmount := by
  decide

/-- C5 amended: the not-in-dispute failure is raised whenever the stored
transaction is not flagged in dispute, with or without an amount; the
missing-amount failure occurs exactly when the stored transaction is
flagged in dispute but carries no amount. Both failures leave the account
and the stored transaction unchanged. -/
theorem resolve_not_in_dispute_priority (s : ClientState)
    (tx stored : Transaction) (hl : s.locked = false)
    (hc : tx.client_id = s.client_id) (hc2 : stored.client_id = s.client_id) :
    (stored.in_dispute = false →
      s.resolve tx stored =
        (Except.error (TxError.NotUnderDispute stored.tx_id), s, stored)) ∧
    (stored.in_dispute = true → stored.amount = none →
      s.resolve tx stored =
        (Except.error TxError.ResolveMissingAmount, s, stored)) := by
  have hr1 := account_ready_ok s tx.client_id hl hc
  have hr2 := account_ready_ok s stored.client_id hl hc2
  constructor
  · intro hd
    cases ha : stored.amount <;>
      simp [ClientState.resolve, hr1, hr2, ha, hd]
  · intro hd ha
    simp [ClientState.resolve, hr1, hr2, ha, hd]

/-- C5 witness: the amended theorem applied to a concrete account and a
stored transaction with no amount, not in dispute. -/
theorem resolve_not_in_dispute_priority_witness :
    (c5_stored.in_dispute = false →
      c5_account.resolve c5_resolve c5_stored =
        (Except.error (TxError.NotUnderDispute 5), c5_account, c5_stored)) ∧
    (c5_stored.in_dispute = true → c5_stored.amount = none →
      c5_account.resolve c5_resolve c5_stored =
        (Except.error TxError.ResolveMissingAmount, c5_account, c5_stored)) := by
  exact resolve_not_in_dispute_priority c5_account c5_resolve c5_stored
    (by decide) (by decide) (by decide)

/-! ## Claim C6 -/

/-- C6: on an unlocked, client-matching account, a withdrawal of an amount
strictly greater than available fails with the insufficient-funds failure
(a constructor distinct from the missing-amount `WithdrawalFailed`
failure) and leaves the state exactly unchanged; when available is at
least the amount, it succeeds and available decreases exactly by the
amount. The hypotheses `s.available ≤ DMAX` and `0 ≤ a` record that the
balance is a representable Decimal and the amount a nonnegative monetary
value, under which the saturating subtraction is exact. -/
theorem withdraw_insufficient_funds_guard (s : ClientState)
    (tx : Transaction) (a : Int) (hl : s.locked = false)
    (hc : tx.client_id = s.client_id) (ha : tx.amount = some a)
    (hb : s.available ≤ DMAX) (ha0 : 0 ≤ a) :
    (s.available < a →
      s.withdraw tx = (Except.error (TxError.InsufficientFunds s.client_id), s)) ∧
    (a ≤ s.available →
      s.withdraw tx = (Except.ok (), { s with available := s.available - a })) ∧
    (∀ c1 c2, TxError.InsufficientFunds c1 ≠ TxError.WithdrawalFailed c2) := by
  have hr := account_ready_ok s tx.client_id hl hc
  refine ⟨?_, ?_, ?_⟩
  · intro hlt
    have : ¬(s.available ≥ a) := by omega
    simp [ClientState.withdraw, hr, ha, this]
  · intro hge
    have hsat : satSub s.available a = s.available - a := by
      apply clampDec_eq_self
      · simp only [DMAX]; omega
      · simp only [DMAX] at hb ⊢; omega
    simp [ClientState.withdraw, hr, ha, hge, hsat]
  · intro c1 c2 h
    exact TxError.noConfusion h

def c6_account : ClientState :=
  { client_id := 1, available := 100, held := 0, locked := false }

def c6_withdrawal : Transaction :=
  { tx_type := TransactionType.Withdrawal, client_id := 1, tx_id := 9,
    amount := some 30, in_dispute := false }

/-- C6 witness: the theorem applied to a concrete account with available
100 and a withdrawal of 30. -/
theorem withdraw_insufficient_funds_guard_witness :
    ((100 : Int) < 30 →
      c6_account.withdraw c6_withdrawal =
        (Except.error (TxError.InsufficientFunds 1), c6_account)) ∧
    ((30 : Int) ≤ 100 →
      c6_account.withdraw c6_withdrawal =
        (Except.ok (), { c6_account with available := 100 - 30 })) ∧
    (∀ c1 c2, TxError.InsufficientFunds c1 ≠ TxError.WithdrawalFailed c2) := by
  exact withdraw_insufficient_funds_guard c6_account c6_withdrawal 30
    (by decide) (by decide) (by decide) (by decide) (by decide)

/-! ## Claim C7 -/

/-- C7: a Dispute, Resolve or Chargeback whose tx id has no entry in the
transaction store is rejected by the router with the unmatched-transaction
failure; the store is unchanged, every other client's account entry is
unchanged, and the transaction's own client entry is its previous value if
present, else a freshly created default account. -/
theorem unmatched_reference_rejected (l : Ledger) (tx : Transaction)
    (hk : tx.tx_type = TransactionType.Dispute ∨
          tx.tx_type = TransactionType.Resolve ∨
          tx.tx_type = TransactionType.Chargeback)
    (hm : l.approved_tx tx.tx_id = none) :
    (l.process_transaction tx).1 =
      Except.error (TxError.UnmatchedTransaction tx.tx_id) ∧
    (l.process_transaction tx).2.approved_tx = l.approved_tx ∧
    (∀ c, c ≠ tx.client_id → (l.process_transaction tx).2.accounts c = l.accounts c) ∧
    (l.process_transaction tx).2.accounts tx.client_id =
      some ((l.accounts tx.client_id).getD (ClientState.new tx.client_id)) := by
  unfold Ledger.process_transaction
  rcases hk with h | h | h <;>
    rw [h, hm] <;>
    exact ⟨rfl, rfl, fun c hc => by simp [upd, hc], by simp [upd]⟩

def c7_ledger : Ledger := Ledger.new

def c7_dispute : Transaction :=
  { tx_type := TransactionType.Dispute, client_id := 3, tx_id := 77,
    amount := none, in_dispute := false }

/-- C7 witness: the theorem applied to the empty ledger and a dispute of an
unknown tx id. -/
theorem unmatched_reference_rejected_witness :
    (c7_ledger.process_transaction c7_dispute).1 =
      Except.error (TxError.UnmatchedTransaction 77) ∧
    (c7_ledger.process_transaction c7_dispute).2.approved_tx =
      c7_ledger.approved_tx ∧
    (∀ c, c ≠ 3 → (c7_ledger.process_transaction c7_dispute).2.accounts c =
      c7_ledger.accounts c) ∧
    (c7_ledger.process_transaction c7_dispute).2.accounts 3 =
      some ((c7_ledger.accounts 3).getD (ClientState.new 3)) := by
  exact unmatched_reference_rejected c7_ledger c7_dispute
    (Or.inl rfl) rfl

/-! ## Claim C8 -/

def c8_deposit1 : Transaction :=
  { tx_type := TransactionType.Deposit, client_id := 1, tx_id := 1,
    amount := some DMAX, in_dispute := false }

def c8_dispute : Transaction :=
  { tx_type := TransactionType.Dispute, client_id := 1, tx_id := 1,
    amount := none, in_dispute := false }

def c8_deposit2 : Transaction :=
  { tx_type := TransactionType.Deposit, client_id := 1, tx_id := 2,
    amount := some DMAX, in_dispute := false }

def c8_state : ClientState :=
  { client_id := 1, available := DMAX, held := DMAX, locked := false }

/-- C8 counterexample: depositing the maximal Decimal, disputing it (which
moves it to held), then depositing the maximal Decimal again reaches an
account with available = held = DMAX; there `total()` saturates at DMAX
and is NOT equal to the exact sum available + held = 2·DMAX. -/
theorem total_saturates_cex :
    (Ledger.applyAll [c8_deposit1, c8_dispute, c8_deposit2]).accounts 1 =
      some c8_state ∧
    c8_state.total ≠ c8_state.available + c8_state.held := by
  decide

/-- C8 amended: `total()` is the saturating sum of available and held, so
it equals available + held exactly whenever that exact sum lies within
the representable Decimal range `[-DMAX, DMAX]`; reachable states whose
exact sum overflows the range observe the clamped value instead. -/
theorem total_eq_available_add_held_in_range (s : ClientState)
    (h1 : -DMAX ≤ s.available + s.held) (h2 : s.available + s.held ≤ DMAX) :
    s.total = s.available + s.held := by
  unfold ClientState.total satAdd
  exact clampDec_eq_self _ h1 h2

def c8w_state : ClientState :=
  { client_id := 2, available := 3, held := 4, locked := false }

/-- C8 witness: the amended theorem applied to a small in-range state. -/
theorem total_eq_available_add_held_in_range_witness :
    c8w_state.total = c8w_state.available + c8w_state.held := by
  exact total_eq_available_add_held_in_range c8w_state
    (by decide) (by decide)

/-! ## Claim C9 -/

/-- C9: on an unlocked account whose client id matches the incoming
transaction's, Chargeback succeeds for ANY stored transaction carrying an
amount — no hypothesis on the stored transaction's kind, `in_dispute`
flag, or client id is needed — and held becomes the saturating
difference held − amount, which can be negative. -/
theorem chargeback_ignores_dispute_state (s : ClientState)
    (tx stored : Transaction) (a : Int) (hl : s.locked = false)
    (hc : tx.client_id = s.client_id) (ha : stored.amount = some a) :
    s.chargeback tx stored =
      (Except.ok (), { s with locked := true, held := satSub s.held a }) := by
  have hr := account_ready_ok s tx.client_id hl hc
  simp [ClientState.chargeback, hr, ha]

def c9_account : ClientState :=
  { client_id := 4, available := 10, held := 0, locked := false }

def c9_chargeback : Transaction :=
  { tx_type := TransactionType.Chargeback, client_id := 4, tx_id := 8,
    amount := none, in_dispute := false }

def c9_stored : Transaction :=
  { tx_type := TransactionType.Withdrawal, client_id := 4, tx_id := 8,
    amount := some 5, in_dispute := false }

/-- C9 witness: the theorem applied to a stored withdrawal that was never
disputed (`in_dispute = false`) on an account with held = 0; the
chargeback succeeds and held becomes −5, a negative balance. -/
theorem chargeback_ignores_dispute_state_witness :
    c9_stored.in_dispute = false ∧
    c9_account.chargeback c9_chargeback c9_stored =
      (Except.ok (),
       { c9_account with locked := true, held := satSub c9_account.held 5 }) ∧
    satSub c9_account.held 5 < 0 := by
  refine ⟨by decide, ?_, by decide⟩
  exact chargeback_ignores_dispute_state c9_account c9_chargeback c9_stored 5
    (by decide) (by decide) (by decide)

/-! ## Claim C10 -/

/-- Key consistency of the accounts map: every stored `ClientState`'s own
client id equals the key it is stored under. -/
def AccountsConsistent (l : Ledger) : Prop :=
  ∀ c s, l.accounts c = some s → s.client_id = c

theorem upd_consistent (m : Nat → Option ClientState) (k : Nat)
    (v : ClientState) (h : ∀ c s, m c = some s → s.client_id = c)
    (hv : v.client_id = k) :
    ∀ c s, upd m k v c = some s → s.client_id = c := by
  intro c s hc
  unfold upd at hc
  split at hc
  case isTrue hck =>
    injection hc with hvs
    rw [← hvs, hv, hck]
  case isFalse hck =>
    exact h c s hc

theorem deposit_client_id (s : ClientState) (tx : Transaction) :
    (s.deposit tx).2.client_id = s.client_id := by
  unfold ClientState.deposit
  split
  · rfl
  · split <;> rfl

theorem withdraw_client_id (s : ClientState) (tx : Transaction) :
    (s.withdraw tx).2.client_id = s.client_id := by
  unfold ClientState.withdraw
  split
  · rfl
  · split
    · split <;> rfl
    · rfl

theorem dispute_client_id (s : ClientState) (tx stored : Transaction) :
    (s.dispute tx stored).2.1.client_id = s.client_id := by
  unfold ClientState.dispute
  split
  · rfl
  · split
    · rfl
    · split
      · split <;> rfl
      · rfl

theorem resolve_client_id (s : ClientState) (tx stored : Transaction) :
    (s.resolve tx stored).2.1.client_id = s.client_id := by
  unfold ClientState.resolve
  split
  · rfl
  · split
    · rfl
    · split
      · split <;> rfl
      · split <;> rfl

theorem chargeback_client_id (s : ClientState) (tx stored : Transaction) :
    (s.chargeback tx stored).2.client_id = s.client_id := by
  unfold ClientState.chargeback
  split
  · rfl
  · split <;> rfl

/-- C10: `process_transaction` preserves key consistency of the accounts
map for every input transaction: entries are only created by
`ClientState.new tx.client_id` under the key `tx.client_id`, and no
account operation changes an account's client id. -/
theorem process_transaction_preserves_key_consistency (l : Ledger)
    (tx : Transaction) (h : AccountsConsistent l) :
    AccountsConsistent (l.process_transaction tx).2 := by
  have hstate :
      ((l.accounts tx.client_id).getD
        (ClientState.new tx.client_id)).client_id = tx.client_id := by
    cases hl : l.accounts tx.client_id with
    | none => rfl
    | some s0 => exact h _ _ hl
  unfold Ledger.process_transaction
  split
  · dsimp only
    split
    · exact upd_consistent _ _ _ h (by rw [deposit_client_id]; exact hstate)
    · exact upd_consistent _ _ _ h (by rw [deposit_client_id]; exact hstate)
  · dsimp only
    split
    · exact upd_consistent _ _ _ h (by rw [withdraw_client_id]; exact hstate)
    · exact upd_consistent _ _ _ h (by rw [withdraw_client_id]; exact hstate)
  · exact upd_consistent _ _ _ h (by rw [dispute_client_id]; exact hstate)
  · exact upd_consistent _ _ _ h (by rw [resolve_client_id]; exact hstate)
  · exact upd_consistent _ _ _ h (by rw [chargeback_client_id]; exact hstate)
  · exact upd_consistent _ _ _ h hstate

def c10_deposit : Transaction :=
  { tx_type := TransactionType.Deposit, client_id := 9, tx_id := 1,
    amount := some 10, in_dispute := false }

/-- C10 witness: the empty ledger is key-consistent, and so is the result
of processing a concrete deposit through it. -/
theorem process_transaction_preserves_key_consistency_witness :
    AccountsConsistent Ledger.new ∧
    AccountsConsistent (Ledger.new.process_transaction c10_deposit).2 := by
  have h0 : AccountsConsistent Ledger.new := by
    intro c s hc
    exact Option.noConfusion hc
  exact ⟨h0, process_transaction_preserves_key_consistency Ledger.new
    c10_deposit h0⟩
